import Mathlib

/-!
Verification of the `bookmarklet-output-webpack-plugin` delivery server.

This file gives a shallow embedding, in Lean, of the parts of the repository
that the specification's claims are about:

* `src/utils/sha-256.ts` (the filename-protecting hash),
* `src/utils/escape-html.ts`, `src/utils/embed-json.ts`,
  `src/utils/format-template.ts`, `src/utils/create-bookmarklets-list.ts`,
* `src/bookmarklet-delivery-server.ts` (request routing and rendering),
* the port-fallback variant of `BookmarkletDeliveryServer` (its `start` and
  `handleRequest`), and `src/utils/is-port-in-use.ts`.

JavaScript strings are modelled as Lean `String`/`List Char`; byte buffers
(`Uint8Array`) as `List Nat` with every element `< 256`; machine integers as
`Nat` with explicit `% 2 ^ 32` where 32-bit overflow matters.  Fallible code
returns `Except`/`Option`.  Platform primitives that the code calls
(`String.prototype.replaceAll` with a one-character search string, regexes of
`format-template.ts`, `JSON.stringify` on strings, `encodeURIComponent`,
`URLSearchParams` serialization, `crypto.subtle.digest("SHA-256", ·)`) are
modelled by executable Lean functions implementing their documented semantics.
-/

set_option maxRecDepth 100000
set_option maxHeartbeats 2000000

namespace BOWP

/-! ### JavaScript string primitives -/

/-- Code points matched by the JavaScript regex class `\s` (WhiteSpace and
LineTerminator): the set used by `trim` and by the `format-template.ts`
regexes.  The template strings fed to those regexes only contain `' '` and
`'\n'`, but we model the full set. -/
def jsWsCodes : List Nat :=
  [9, 10, 11, 12, 13, 32, 160, 5760,
   8192, 8193, 8194, 8195, 8196, 8197, 8198, 8199, 8200, 8201, 8202,
   8232, 8233, 8239, 8287, 12288, 65279]

/-- Whether a character is JavaScript whitespace (`\s`). -/
def jsWs (c : Char) : Bool := jsWsCodes.contains c.toNat

/-- Model of `String.prototype.replaceAll` with a one-character search string:
every occurrence of `c` is replaced by `r` (replacements are not re-scanned,
which for a one-character pattern coincides with this pointwise map). -/
def replaceAllChar (c : Char) (r : List Char) (l : List Char) : List Char :=
  l.flatMap (fun x => if x = c then r else [x])

/-- Model of `String.prototype.trim`: strip `\s` characters from both ends. -/
def jsTrim (l : List Char) : List Char :=
  ((l.dropWhile jsWs).reverse.dropWhile jsWs).reverse

/-- UTF-8 bytes of one scalar value (model of `TextEncoder.encode`, one
character at a time; Lean `Char` carries no lone surrogates). -/
def utf8Char (c : Char) : List Nat :=
  let n := c.toNat
  if n < 128 then [n]
  else if n < 2048 then [192 + n / 64, 128 + n % 64]
  else if n < 65536 then [224 + n / 4096, 128 + n / 64 % 64, 128 + n % 64]
  else [240 + n / 262144, 128 + n / 4096 % 64, 128 + n / 64 % 64, 128 + n % 64]

/-- UTF-8 bytes of a string (model of `TextEncoder.encode`). -/
def utf8Bytes (s : String) : List Nat := s.data.flatMap utf8Char

/-- Lowercase hexadecimal digit for `n < 16`, as produced by
`Number.prototype.toString(16)`. -/
def hexDigitLower (n : Nat) : Char :=
  if n < 10 then Char.ofNat (48 + n) else Char.ofNat (87 + n)

/-- Uppercase hexadecimal digit for `n < 16`, as used by percent-encoding. -/
def hexDigitUpper (n : Nat) : Char :=
  if n < 10 then Char.ofNat (48 + n) else Char.ofNat (55 + n)

/-- Two lowercase hex digits of a byte: `num.toString(16).padStart(2, "0")`
for `num < 256`. -/
def byteHexLower (b : Nat) : List Char :=
  [hexDigitLower (b / 16), hexDigitLower (b % 16)]

/-- Two uppercase hex digits of a byte. -/
def byteHexUpper (b : Nat) : List Char :=
  [hexDigitUpper (b / 16), hexDigitUpper (b % 16)]

/-! ### `src/utils/sha-256.ts` and the SHA-256 primitive

The TypeScript file calls `crypto.subtle.digest("SHA-256", data)`; `sha256Digest`
below is an executable model of that primitive (FIPS 180-4), on byte lists. -/

/-- `toHexString` from `src/utils/sha-256.ts`: each byte rendered as two
lowercase hex digits and joined. -/
def toHexString (binary : List Nat) : String :=
  ⟨binary.flatMap byteHexLower⟩

/-- The SHA-256 round constants. -/
def sha256K : List Nat :=
  [1116352408, 1899447441, 3049323471, 3921009573, 961987163, 1508970993,
   2453635748, 2870763221, 3624381080, 310598401, 607225278, 1426881987,
   1925078388, 2162078206, 2614888103, 3248222580, 3835390401, 4022224774,
   264347078, 604807628, 770255983, 1249150122, 1555081692, 1996064986,
   2554220882, 2821834349, 2952996808, 3210313671, 3336571891, 3584528711,
   113926993, 338241895, 666307205, 773529912, 1294757372, 1396182291,
   1695183700, 1986661051, 2177026350, 2456956037, 2730485921, 2820302411,
   3259730800, 3345764771, 3516065817, 3600352804, 4094571909, 275423344,
   430227734, 506948616, 659060556, 883997877, 958139571, 1322822218,
   1537002063, 1747873779, 1955562222, 2024104815, 2227730452, 2361852424,
   2428436474, 2756734187, 3204031479, 3329325298]

/-- The SHA-256 initial hash value. -/
def sha256H0 : List Nat :=
  [1779033703, 3144134277, 1013904242, 2773480762,
   1359893119, 2600822924, 528734635, 1541459225]

/-- 32-bit rotate right of a word. -/
def rotr32 (k x : Nat) : Nat := x / 2 ^ k + x % 2 ^ k * 2 ^ (32 - k)

/-- Big sigma 0. -/
def bSig0 (x : Nat) : Nat := (rotr32 2 x) ^^^ (rotr32 13 x) ^^^ (rotr32 22 x)

/-- Big sigma 1. -/
def bSig1 (x : Nat) : Nat := (rotr32 6 x) ^^^ (rotr32 11 x) ^^^ (rotr32 25 x)

/-- Small sigma 0. -/
def sSig0 (x : Nat) : Nat := (rotr32 7 x) ^^^ (rotr32 18 x) ^^^ (x / 2 ^ 3)

/-- Small sigma 1. -/
def sSig1 (x : Nat) : Nat := (rotr32 17 x) ^^^ (rotr32 19 x) ^^^ (x / 2 ^ 10)

/-- SHA-256 padding: append `0x80`, zeros, and the 64-bit big-endian bit
length, reaching a multiple of 64 bytes. -/
def sha256Pad (msg : List Nat) : List Nat :=
  let len := msg.length
  let zeros := (119 - len % 64) % 64
  let bitLen := len * 8
  msg ++ 128 :: List.replicate zeros 0 ++
    [bitLen / 2 ^ 56 % 256, bitLen / 2 ^ 48 % 256, bitLen / 2 ^ 40 % 256,
     bitLen / 2 ^ 32 % 256, bitLen / 2 ^ 24 % 256, bitLen / 2 ^ 16 % 256,
     bitLen / 2 ^ 8 % 256, bitLen % 256]

/-- Split a byte list into 64-byte blocks (the padded input's length is a
multiple of 64). -/
def toBlocks (l : List Nat) : List (List Nat) :=
  (List.range (l.length / 64)).map (fun i => (l.drop (64 * i)).take 64)

/-- The sixteen 32-bit big-endian words of one 64-byte block. -/
def blockWords (b : List Nat) : List Nat :=
  (List.range 16).map (fun i =>
    b.getD (4 * i) 0 * 2 ^ 24 + b.getD (4 * i + 1) 0 * 2 ^ 16 +
    b.getD (4 * i + 2) 0 * 2 ^ 8 + b.getD (4 * i + 3) 0)

/-- Message-schedule extension of the sixteen block words to sixty-four. -/
def sha256Schedule (w16 : List Nat) : List Nat :=
  (List.range 48).foldl
    (fun w _ =>
      let n := w.length
      w ++ [(sSig1 (w.getD (n - 2) 0) + w.getD (n - 7) 0 +
             sSig0 (w.getD (n - 15) 0) + w.getD (n - 16) 0) % 2 ^ 32])
    w16

/-- One round of the SHA-256 compression function. -/
def sha256Round (st : Nat × Nat × Nat × Nat × Nat × Nat × Nat × Nat)
    (kw : Nat × Nat) : Nat × Nat × Nat × Nat × Nat × Nat × Nat × Nat :=
  let (a, b, c, d, e, f, g, h) := st
  let (k, w) := kw
  let ch := (e &&& f) ^^^ ((e ^^^ 4294967295) &&& g)
  let maj := (a &&& b) ^^^ (a &&& c) ^^^ (b &&& c)
  let t1 := (h + bSig1 e + ch + k + w) % 2 ^ 32
  let t2 := (bSig0 a + maj) % 2 ^ 32
  ((t1 + t2) % 2 ^ 32, a, b, c, (d + t1) % 2 ^ 32, e, f, g)

/-- Process one 64-byte block, updating the eight hash words. -/
def sha256Block (hs : List Nat) (b : List Nat) : List Nat :=
  let ws := sha256Schedule (blockWords b)
  let init := (hs.getD 0 0, hs.getD 1 0, hs.getD 2 0, hs.getD 3 0,
               hs.getD 4 0, hs.getD 5 0, hs.getD 6 0, hs.getD 7 0)
  let (a, b', c, d, e, f, g, h) := (sha256K.zip ws).foldl sha256Round init
  [(hs.getD 0 0 + a) % 2 ^ 32, (hs.getD 1 0 + b') % 2 ^ 32,
   (hs.getD 2 0 + c) % 2 ^ 32, (hs.getD 3 0 + d) % 2 ^ 32,
   (hs.getD 4 0 + e) % 2 ^ 32, (hs.getD 5 0 + f) % 2 ^ 32,
   (hs.getD 6 0 + g) % 2 ^ 32, (hs.getD 7 0 + h) % 2 ^ 32]

/-- SHA-256 digest of a byte list: 32 bytes.  Model of
`crypto.subtle.digest("SHA-256", data)`. -/
def sha256Digest (msg : List Nat) : List Nat :=
  let hs := (toBlocks (sha256Pad msg)).foldl sha256Block sha256H0
  hs.flatMap (fun w => [w / 2 ^ 24 % 256, w / 2 ^ 16 % 256, w / 2 ^ 8 % 256, w % 256])

/-- `sha256` from `src/utils/sha-256.ts`: starting from the UTF-8 bytes of
`data`, digest the concatenation of the current buffer with the salt bytes,
`stretching` times in total, and render the final buffer as lowercase hex.
The `for` loop is embedded as a fold over `List.range stretching`. -/
def sha256 (data salt : String) (stretching : Nat) : String :=
  let binarySalt := utf8Bytes salt
  let binaryHash :=
    (List.range stretching).foldl
      (fun binaryHash _ => sha256Digest (binaryHash ++ binarySalt))
      (utf8Bytes data)
  toHexString binaryHash

/-- The hash algorithm exactly as the specification's words describe it
(claim C5): "apply a cryptographic digest to `filename`, then repeatedly
re-digest the concatenation of `(previousDigestBytes, saltBytes)` exactly
`stretchCount` times"; rendered as lowercase hex.  Stated from the spec for
comparison with `sha256`, which is the embedding of the source. -/
def sha256SpecClaim (data salt : String) (stretchCount : Nat) : String :=
  toHexString
    ((fun h => sha256Digest (h ++ utf8Bytes salt))^[stretchCount]
      (sha256Digest (utf8Bytes data)))

/-! ### `src/utils/format-template.ts`

`removeIndent` is `originalString.replace(/^\s+/gm, "").trim()`;
`oneLine` is `originalString.replace(/^\s+|\n/, "")` (no `g`/`m` flag: only
the first match is removed).  Template-literal call sites are embedded by
concatenating the literal segments with the interpolated values. -/

/-- One pass of `replace(/^\s+/gm, "")`: the flag `true` means the scan is at
a line start (position 0 or just after a kept `'\n'`), where a maximal run of
`\s` characters (consumed one at a time, staying at a line start) is
removed. -/
def stripLineStartWs : Bool → List Char → List Char
  | _, [] => []
  | true, c :: t =>
    if jsWs c then stripLineStartWs true t else c :: stripLineStartWs false t
  | false, c :: t =>
    if c = '\n' then c :: stripLineStartWs true t else c :: stripLineStartWs false t

/-- `removeIndent` from `src/utils/format-template.ts` on a joined template
string: remove every line-start whitespace run, then `trim`. -/
def removeIndentL (l : List Char) : List Char :=
  jsTrim (stripLineStartWs true l)

/-- String-level `removeIndent`. -/
def removeIndentS (s : String) : String := ⟨removeIndentL s.data⟩

/-- Remove the first `'\n'` of a string, if any (the `\n` alternative of the
`oneLine` regex, which has no `m` flag, so `^` can only match at position 0). -/
def removeFirstNewline : List Char → List Char
  | [] => []
  | c :: t => if c = '\n' then t else c :: removeFirstNewline t

/-- `oneLine` from `src/utils/format-template.ts`: remove the first match of
`/^\s+|\n/` — the leading whitespace run when the string starts with
whitespace, otherwise the first newline. -/
def oneLineL : List Char → List Char
  | [] => []
  | c :: t => if jsWs c then (c :: t).dropWhile jsWs else removeFirstNewline (c :: t)

/-- String-level `oneLine`. -/
def oneLineS (s : String) : String := ⟨oneLineL s.data⟩

/-! ### `src/utils/escape-html.ts` -/

/-- `escapeHtml`: the five `replaceAll` passes of the source, in source
order (`&` first, then `"`, `'`, `<`, `>`). -/
def escapeHtml (s : String) : String :=
  ⟨replaceAllChar '>' ['&', 'g', 't', ';']
    (replaceAllChar '<' ['&', 'l', 't', ';']
      (replaceAllChar '\x27' ['&', '#', '3', '9', ';']
        (replaceAllChar '"' ['&', '#', '3', '4', ';']
          (replaceAllChar '&' ['&', 'a', 'm', 'p', ';'] s.data))))⟩

/-! ### `src/utils/embed-json.ts`

`embedJson` is `JSON.stringify(data)` followed by a `replaceAll` of the raw
U+2028 character with the six characters `\u2028`, and likewise for U+2029.
The server only ever passes strings, so we model `JSON.stringify` on strings
(ECMA-262 `QuoteJSONString`). -/

/-- `JSON.stringify` escaping of one character: `"` and `\` get a backslash,
the five control characters with short escapes use them, other characters
below `U+0020` become `\u00XX` (lowercase hex), everything else is emitted
verbatim (Lean `Char` has no lone surrogates). -/
def escapeJsonChar (c : Char) : List Char :=
  let n := c.toNat
  if n = 34 then ['\\', '"']
  else if n = 92 then ['\\', '\\']
  else if n = 8 then ['\\', 'b']
  else if n = 9 then ['\\', 't']
  else if n = 10 then ['\\', 'n']
  else if n = 12 then ['\\', 'f']
  else if n = 13 then ['\\', 'r']
  else if n < 32 then
    ['\\', 'u', '0', '0', hexDigitLower (n / 16), hexDigitLower (n % 16)]
  else [c]

/-- Model of `JSON.stringify` on a string: the escaped body in quotes. -/
def jsonStringifyString (s : String) : String :=
  ⟨'"' :: (s.data.flatMap escapeJsonChar ++ ['"'])⟩

/-- `embedJson` from `src/utils/embed-json.ts` (string case): stringify, then
replace every raw U+2028 and U+2029 by its escape sequence. -/
def embedJson (s : String) : String :=
  ⟨replaceAllChar '\u2029' ['\\', 'u', '2', '0', '2', '9']
    (replaceAllChar '\u2028' ['\\', 'u', '2', '0', '2', '8']
      (jsonStringifyString s).data)⟩

/-- The per-character escape that `embedJson` amounts to: the
`JSON.stringify` escape of the character with both separator replacements
applied to it.  Used to state and prove the round-trip property of
`embedJson`. -/
def embedJsonChar (c : Char) : List Char :=
  replaceAllChar '\u2029' ['\\', 'u', '2', '0', '2', '9']
    (replaceAllChar '\u2028' ['\\', 'u', '2', '0', '2', '8'] (escapeJsonChar c))

/-- Value of one hexadecimal digit character, if any (JSON `\uXXXX` digits). -/
def hexVal (c : Char) : Option Nat :=
  if 48 ≤ c.toNat && c.toNat ≤ 57 then some (c.toNat - 48)
  else if 97 ≤ c.toNat && c.toNat ≤ 102 then some (c.toNat - 87)
  else if 65 ≤ c.toNat && c.toNat ≤ 70 then some (c.toNat - 55)
  else none

/-- JSON short escapes (the inverse side): the character denoted by `\e`. -/
def jsonUnescapeChar : Char → Option Char
  | '"' => some '"'
  | '\\' => some '\\'
  | '/' => some '/'
  | 'b' => some '\x08'
  | 'f' => some '\x0c'
  | 'n' => some '\n'
  | 'r' => some '\r'
  | 't' => some '\t'
  | _ => none

/-- JSON string-body parser: the characters after the opening quote, expecting
the closing quote to end the input.  `acc` accumulates parsed characters in
reverse.  A `\uXXXX` escape must denote a Unicode scalar value (the strings
produced by `embedJson` never contain surrogate-half escapes). -/
def jsonUnescapeAux (acc : List Char) : List Char → Option (List Char)
  | [] => none
  | c :: rest =>
    if c = '"' then (if rest.isEmpty then some acc.reverse else none)
    else if c = '\\' then
      match rest with
      | 'u' :: d1 :: d2 :: d3 :: d4 :: after =>
        match hexVal d1, hexVal d2, hexVal d3, hexVal d4 with
        | some v1, some v2, some v3, some v4 =>
          let n := ((v1 * 16 + v2) * 16 + v3) * 16 + v4
          if n < 55296 ∨ (57343 < n ∧ n < 1114112) then
            jsonUnescapeAux (Char.ofNat n :: acc) after
          else none
        | _, _, _, _ => none
      | e :: after =>
        match jsonUnescapeChar e with
        | some ch => jsonUnescapeAux (ch :: acc) after
        | none => none
      | [] => none
    else if c.toNat < 32 then none
    else jsonUnescapeAux (c :: acc) rest

/-- Model of `JSON.parse` on a complete JSON string literal: an opening
quote, an escaped body, a closing quote ending the input. -/
def jsonParseString (s : String) : Option String :=
  match s.data with
  | '"' :: rest => (jsonUnescapeAux [] rest).map fun l => ⟨l⟩
  | _ => none

/-! ### URL primitives used by `createDynamicScriptingBookmarklet`

`new URL("/file", origin)` followed by `searchParams.set("filename", hash)`
yields the href `origin + "/file?filename=" + <urlencoded hash>`; the
bookmarklet source is passed through `encodeURIComponent`. -/

/-- Characters `encodeURIComponent` leaves unescaped:
`A-Z a-z 0-9 - _ . ! ~ * ' ( )`. -/
def uriUnreserved (c : Char) : Bool :=
  let n := c.toNat
  (65 ≤ n && n ≤ 90) || (97 ≤ n && n ≤ 122) || (48 ≤ n && n ≤ 57) ||
  n == 45 || n == 95 || n == 46 || n == 33 || n == 126 ||
  n == 42 || n == 39 || n == 40 || n == 41

/-- `encodeURIComponent`: unreserved characters verbatim, every other
character as the uppercase percent-encoding of its UTF-8 bytes. -/
def encodeURIComponent (s : String) : String :=
  ⟨s.data.flatMap (fun c =>
    if uriUnreserved c then [c]
    else (utf8Char c).flatMap (fun b => '%' :: byteHexUpper b))⟩

/-- Characters the `application/x-www-form-urlencoded` serializer (used by
`URLSearchParams`) leaves unescaped: `A-Z a-z 0-9 * - . _`. -/
def formUnreserved (c : Char) : Bool :=
  let n := c.toNat
  (65 ≤ n && n ≤ 90) || (97 ≤ n && n ≤ 122) || (48 ≤ n && n ≤ 57) ||
  n == 42 || n == 45 || n == 46 || n == 95

/-- `URLSearchParams` value serialization: space as `+`, unreserved
characters verbatim, everything else percent-encoded. -/
def formUrlEncode (s : String) : String :=
  ⟨s.data.flatMap (fun c =>
    if c = ' ' then ['+']
    else if formUnreserved c then [c]
    else (utf8Char c).flatMap (fun b => '%' :: byteHexUpper b))⟩

/-- The href of `new URL("/file", origin)` after
`searchParams.set("filename", hash)`. -/
def fileUrlHref (origin hash : String) : String :=
  origin ++ "/file?filename=" ++ formUrlEncode hash

/-! ### Template literals of the delivery server

The exact template strings of `src/bookmarklet-delivery-server.ts` and
`src/utils/create-bookmarklets-list.ts`, split at their interpolation points.
Braces are written `\x7b`/`\x7d` and apostrophes `\x27`. -/

/-- `create-bookmarklets-list.ts` HTML template, before
`${listItems.join("")}`. -/
def listTplHead : String :=
  "\n    <!DOCTYPE html>\n    <html lang=\"en\">\n    <head>\n      <meta charset=\"UTF-8\">\n      <meta name=\"viewport\" content=\"width=device-width, initial-scale=1.0\">\n      <title>Bookmarklets</title>\n    </head>\n    <body style=\"font:18px sans-serif;margin:20px\">\n      <p>You can drag the following bookmarklets and register for the bookmark.</p>\n      <ul>"

/-- `create-bookmarklets-list.ts` HTML template, after the list items. -/
def listTplTail : String :=
  "</ul>\n    </body>\n    </html>\n  "

/-- `listTplHead` with its leading whitespace run (what the first and only
match of the `oneLine` regex removes) stripped. -/
def listDocHead : String :=
  "<!DOCTYPE html>\n    <html lang=\"en\">\n    <head>\n      <meta charset=\"UTF-8\">\n      <meta name=\"viewport\" content=\"width=device-width, initial-scale=1.0\">\n      <title>Bookmarklets</title>\n    </head>\n    <body style=\"font:18px sans-serif;margin:20px\">\n      <p>You can drag the following bookmarklets and register for the bookmark.</p>\n      <ul>"

/-- The `generalErrorMessage` template of
`createDynamicScriptingBookmarklet`, before `removeIndent`. -/
def generalErrTpl : String :=
  "\n      [BookmarkletOutputWebpackPlugin]\n      An error has occurred while loading the script.\n      The following are possible reasons.\n      - Webpack has not been watched.\n      - The webpack process has not finished.\n      - Access to localhost from this page has blocked.\n    "

/-- The `cspErrorMessage` template, before `removeIndent`. -/
def cspErrTpl : String :=
  "\n      [BookmarkletOutputWebpackPlugin]\n      The script has been blocked by the CSP configured on this page.\n      Therefore, the dynamic scripting feature cannot be used on this page.\n    "

/-- The `errorContent` template of `createInvalidFileResponse`, before
`removeIndent`. -/
def invalidFileTpl : String :=
  "\n      [BookmarkletOutputWebpackPlugin]\n      The requested filename cannot be found.\n      Please reload the registration page and register the bookmarklet again.\n    "

/-- `bookmarkletCode` template: segment before `${embedJson(...&id=...)}`. -/
def bkSeg0 : String :=
  "\n      (function(d)\x7b\n        var s=d.createElement(\x27script\x27),\n            u=s.src="

/-- `bookmarkletCode` template: segment before
`${embedJson(generalErrorMessage)}`. -/
def bkSeg1 : String :=
  "\n              +new Date().getTime()+\x27-\x27+(Math.random()+\x2700000000\x27).slice(2,9),\n            E=A(s,\x27error\x27,function()\x7b\n              alert("

/-- `bookmarkletCode` template: segment before
`${embedJson(cspErrorMessage)}`. -/
def bkSeg2 : String :=
  ");\n              R()\n            \x7d),\n            V=A(d,\x27securitypolicyviolation\x27,function(e)\x7b\n              e.blockedURI===u\n                &&e.disposition===\x27enforce\x27\n                &&(alert("

/-- `bookmarkletCode` template: final segment. -/
def bkSeg3 : String :=
  "),R())\n            \x7d),\n            L=A(s,\x27load\x27,R);\n        function A(t,n,f)\x7b\n          t.addEventListener(n,f);\n          return function()\x7b\n            t.removeEventListener(n,f)\n          \x7d\n        \x7d\n        function R()\x7b\n          E();\n          V();\n          L()\n        \x7d\n        d.body.appendChild(s).parentNode.removeChild(s)\n      \x7d)(document)\n    "

/-! ### `src/bookmarklet-delivery-server.ts` -/

/-- A `BookmarkletSource`: one servable script of the current generation. -/
structure BookmarkletSource where
  filename : String
  script : String
  hash : String
deriving DecidableEq

/-- The parsed request URL data the router consumes: `reqUrl.pathname` and
`reqUrl.searchParams.get("filename")` (which is `null` — here `none` — when
the parameter is absent). -/
structure RequestData where
  pathname : String
  filenameParam : Option String
deriving DecidableEq

/-- A `ResponseData` value: status code, `Content-Type`, body. -/
structure ResponseData where
  status : Nat
  contentType : String
  content : String
deriving DecidableEq

/-- Constructor options of `BookmarkletDeliveryServer` (the logger is pure
output and is not modelled). -/
structure ServerOptions where
  port : Nat
  host : String
deriving DecidableEq

/-- `this.origin`, as computed in the constructor. -/
def serverOrigin (o : ServerOptions) : String :=
  "http://" ++ o.host ++ ":" ++ Nat.repr o.port

/-- The mutable state of a `BookmarkletDeliveryServer`: its options plus the
`bookmarkletSources` and `isReady` fields (initially `[]` and `false`). -/
structure ServerState where
  options : ServerOptions
  bookmarkletSources : List BookmarkletSource
  isReady : Bool
deriving DecidableEq

/-- `setBookmarkletSources`: replace the whole generation. -/
def setBookmarkletSources (st : ServerState) (sources : List BookmarkletSource) :
    ServerState :=
  ⟨st.options, sources, st.isReady⟩

/-- `setIsReady`. -/
def setIsReady (st : ServerState) (state : Bool) : ServerState :=
  ⟨st.options, st.bookmarkletSources, state⟩

/-- One externally driven state change of the server (the two setters the
build pipeline calls between generations). -/
inductive ServerOp where
  | setBookmarkletSources (sources : List BookmarkletSource)
  | setIsReady (state : Bool)
deriving DecidableEq

/-- Apply one operation to the server state. -/
def applyOp (st : ServerState) : ServerOp → ServerState
  | .setBookmarkletSources sources => setBookmarkletSources st sources
  | .setIsReady b => setIsReady st b

/-- Apply a sequence of operations in order. -/
def applyOps (st : ServerState) (ops : List ServerOp) : ServerState :=
  ops.foldl applyOp st

/-- `createHttpErrorResponse`: plain-text status line. -/
def createHttpErrorResponse (status : Nat) (statusText : String) : ResponseData :=
  ⟨status, "text/plain", Nat.repr status ++ " " ++ statusText⟩

/-- `createBookmarkletFileResponse`: the script body verbatim. -/
def createBookmarkletFileResponse (script : String) : ResponseData :=
  ⟨200, "text/javascript", script⟩

/-- The `errorContent` of `createInvalidFileResponse` after `removeIndent`. -/
def invalidFileErrorContent : String := removeIndentS invalidFileTpl

/-- `createInvalidFileResponse`: a 200 `text/javascript` response whose body
is an `alert(...)` call with the not-found explanation. -/
def createInvalidFileResponse : ResponseData :=
  ⟨200, "text/javascript", "alert(" ++ embedJson invalidFileErrorContent ++ ")"⟩

/-- `generalErrorMessage` after `removeIndent`. -/
def generalErrorMessage : String := removeIndentS generalErrTpl

/-- `cspErrorMessage` after `removeIndent`. -/
def cspErrorMessage : String := removeIndentS cspErrTpl

/-- `createDynamicScriptingBookmarklet`: the `javascript:` bootstrap payload
for one hash — the `oneLine` bookmarklet template with the script URL and the
two alert messages embedded as JSON, percent-encoded. -/
def createDynamicScriptingBookmarklet (origin hash : String) : String :=
  "javascript:" ++
    encodeURIComponent (oneLineS
      (bkSeg0 ++ embedJson (fileUrlHref origin hash ++ "&id=") ++
       bkSeg1 ++ embedJson generalErrorMessage ++
       bkSeg2 ++ embedJson cspErrorMessage ++ bkSeg3))

/-- An entry of the bookmarklets list
(`src/utils/create-bookmarklets-list.ts`). -/
structure BookmarkletsListItem where
  anchorText : String
  bookmarklet : String
deriving DecidableEq

/-- Model of `Array.prototype.join("")`. -/
def joinAll (l : List String) : String :=
  ⟨(l.map String.data).flatten⟩

/-- `createBookmarkletsList` from `src/utils/create-bookmarklets-list.ts`
(source file `part_000`): one escaped `<li><a ...>` per entry, interpolated
into the `oneLine` HTML template. -/
def createBookmarkletsList (bookmarklets : List BookmarkletsListItem) : String :=
  let listItems := bookmarklets.map (fun i =>
    "<li><a href=\"" ++ escapeHtml i.bookmarklet ++ "\">" ++
      escapeHtml i.anchorText ++ "</a></li>")
  oneLineS (listTplHead ++ joinAll listItems ++ listTplTail)

/-- `createListResponse`: the index page listing every current source, with
anchor text `[w] ${escapeHtml(filename)}`. -/
def createListResponse (origin : String) (sources : List BookmarkletSource) :
    ResponseData :=
  ⟨200, "text/html",
    createBookmarkletsList (sources.map (fun s =>
      ⟨"[w] " ++ escapeHtml s.filename,
       createDynamicScriptingBookmarklet origin s.hash⟩))⟩

/-- `createResponse`: readiness gate, then routing on the pathname.  This is
the method body shared verbatim by `src/bookmarklet-delivery-server.ts` and
by the port-fallback variant (which passes `getOrigin(currentPort)` as
`origin`). -/
def createResponseCore (origin : String) (isReady : Bool)
    (sources : List BookmarkletSource) (req : RequestData) : ResponseData :=
  if !isReady then createHttpErrorResponse 503 ("Service Unavailable")
  else
    match req.pathname with
    | "/" => createListResponse origin sources
    | "/file" =>
      match sources.find? (fun s => some s.hash == req.filenameParam) with
      | some found => createBookmarkletFileResponse found.script
      | none => createInvalidFileResponse
    | _ => createHttpErrorResponse 404 ("Not Found")

/-- `createResponse` of `src/bookmarklet-delivery-server.ts`, on the server
state. -/
def createResponse (st : ServerState) (req : RequestData) : ResponseData :=
  createResponseCore (serverOrigin st.options) st.isReady st.bookmarkletSources req

/-! ### The port-fallback `BookmarkletDeliveryServer` variant

The repository variant with `defaultPort`/`fallbackPort`/`currentPort`
(`start`, `handleRequest`; referenced by the claims as `part_004`).  Port
probing is embedded against an oracle `inUse : Nat → Bool` giving the result
of `isPortInUse` for each port. -/

/-- Constructor options of the fallback-capable server. -/
structure FallbackOptions where
  port : Nat
  fallbackPort : Bool
  host : String
deriving DecidableEq

/-- State of the fallback-capable server after construction.  `currentPort`
is the `currentPort` field; `listenedPort` records the port actually passed
to `this.server.listen(...)`, if `listen` has been called. -/
structure FallbackServerState where
  defaultPort : Nat
  fallbackPort : Bool
  host : String
  currentPort : Option Nat
  listenedPort : Option Nat
  bookmarkletSources : List BookmarkletSource
  isReady : Bool
deriving DecidableEq

/-- The two fatal startup errors `start` can throw. -/
inductive StartError where
  | maxFallbackAttemptsReached
  | portInUse (port : Nat)
deriving DecidableEq

/-- The exact `TypeError` messages of the two startup errors. -/
def startErrorMessage : StartError → String
  | .maxFallbackAttemptsReached => "Maximum fallback attempts reached."
  | .portInUse p => "Port " ++ Nat.repr p ++ " is already in use"

/-- JavaScript falsiness of `this.currentPort` (a `number | undefined`):
`!x` is true for `undefined` and for `0`. -/
def jsFalsy : Option Nat → Bool
  | none => true
  | some p => p == 0

/-- `getOrigin` of the fallback-capable server. -/
def getOrigin (host : String) (port : Nat) : String :=
  "http://" ++ host ++ ":" ++ Nat.repr port

/-- The state `start` leaves behind on success: `currentPort` set to the
negotiated port `p`, and the listener bound — as in the source — on
`this.defaultPort`, not on `currentPort`. -/
def startSuccessState (opts : FallbackOptions) (p : Nat) : FallbackServerState :=
  ⟨opts.port, opts.fallbackPort, opts.host, some p, some opts.port, [], false⟩

/-- `start` of the fallback-capable server.  With `fallbackPort`, probe
`defaultPort + i` for `i < 20` and keep the first free port (the `for` loop
with `break` is embedded as `find?` over `List.range 20`); the success check
is the JavaScript-falsy `if (!this.currentPort)`.  Without `fallbackPort`,
fail iff `defaultPort` is in use.  On success `this.server.listen
(this.defaultPort, this.host)` runs, recorded in `listenedPort`. -/
def start (opts : FallbackOptions) (inUse : Nat → Bool) :
    Except StartError FallbackServerState :=
  if opts.fallbackPort then
    let found := (List.range 20).find? (fun i => !inUse (opts.port + i))
    let currentPort := found.map (fun i => opts.port + i)
    if jsFalsy currentPort then .error .maxFallbackAttemptsReached
    else .ok (startSuccessState opts (currentPort.getD 0))
  else
    if inUse opts.port then .error (.portInUse opts.port)
    else .ok (startSuccessState opts opts.port)

/-- Apply one setter to the fallback server state. -/
def applyOpF (st : FallbackServerState) : ServerOp → FallbackServerState
  | .setBookmarkletSources sources =>
    ⟨st.defaultPort, st.fallbackPort, st.host, st.currentPort, st.listenedPort,
     sources, st.isReady⟩
  | .setIsReady b =>
    ⟨st.defaultPort, st.fallbackPort, st.host, st.currentPort, st.listenedPort,
     st.bookmarkletSources, b⟩

/-- Apply a sequence of setters in order. -/
def applyOpsF (st : FallbackServerState) (ops : List ServerOp) :
    FallbackServerState :=
  ops.foldl applyOpF st

/-- `handleRequest` of the fallback-capable server: throw
`"Current port is undefined."` when `!this.currentPort`, otherwise route the
request against `getOrigin(this.currentPort)`. -/
def handleRequest (st : FallbackServerState) (req : RequestData) :
    Except String ResponseData :=
  if jsFalsy st.currentPort then .error ("Current port is undefined.")
  else
    .ok (createResponseCore (getOrigin st.host (st.currentPort.getD 0))
      st.isReady st.bookmarkletSources req)

/-! ### `src/utils/is-port-in-use.ts` -/

/-- How the transient `net.createServer().listen(port)` bind settles: the
`listening` event, an error with `code === "EADDRINUSE"`, or any other
error. -/
inductive BindOutcome where
  | listening
  | errorAddrInUse
  | errorOther (message : String)
deriving DecidableEq

/-- What the probe promise does: resolve with a boolean or reject with the
error. -/
inductive ProbeSettled where
  | resolved (value : Bool)
  | rejected (message : String)
deriving DecidableEq

/-- Result of `isPortInUse`: how the promise settles, and whether the
transient server was closed again (`server.close()` runs only in the
`listening` handler). -/
structure ProbeResult where
  settled : ProbeSettled
  serverClosed : Bool
deriving DecidableEq

/-- `isPortInUse` from `src/utils/is-port-in-use.ts`, as a function of how
the transient bind settles: `EADDRINUSE` resolves `true`; a successful bind
resolves `false` and closes the transient server; any other error rejects. -/
def isPortInUse : BindOutcome → ProbeResult
  | .listening => ⟨.resolved false, true⟩
  | .errorAddrInUse => ⟨.resolved true, false⟩
  | .errorOther e => ⟨.rejected e, false⟩

/-! ### Concrete fixtures used by counterexamples and witnesses -/

/-- Decidable equality for `Except`, so concrete `start` results can be
checked by `decide`. -/
instance instDecEqExcept {ε α : Type} [DecidableEq ε] [DecidableEq α] :
    DecidableEq (Except ε α)
  | .ok a, .ok b =>
    if h : a = b then .isTrue (by rw [h]) else .isFalse (by simp [h])
  | .error e, .error f =>
    if h : e = f then .isTrue (by rw [h]) else .isFalse (by simp [h])
  | .ok _, .error _ => .isFalse (by simp)
  | .error _, .ok _ => .isFalse (by simp)

/-- An oracle under which no port is in use. -/
def allPortsFree : Nat → Bool := fun _ => false

/-- An oracle under which exactly port 3300 is in use. -/
def onlyPort3300InUse : Nat → Bool := fun p => p == 3300

/-- Fallback-enabled options on default port 3300. -/
def optsFallback3300 : FallbackOptions := ⟨3300, true, "localhost"⟩

/-- Fallback-enabled options on default port 0 (a valid TCP port number). -/
def optsFallback0 : FallbackOptions := ⟨0, true, "localhost"⟩

/-- Fallback-disabled options on default port 0. -/
def optsNoFallback0 : FallbackOptions := ⟨0, false, "localhost"⟩

/-- A ready server whose one source has an HTML-significant character (`<`)
in its filename — the fixture of the index-rendering counterexample. -/
def c8State : ServerState :=
  ⟨⟨1, "h"⟩, [⟨"a<b.js", "x", "k"⟩], true⟩

/-- Fallback-disabled options on default port 3300. -/
def optsNoFallback3300 : FallbackOptions := ⟨3300, false, "localhost"⟩

/-- A two-source ready server with distinct hashes (round-trip witness). -/
def w1State : ServerState :=
  ⟨⟨3300, "localhost"⟩,
   [⟨"app.js", "alert(1)", "aa11"⟩, ⟨"b.js", "2+2", "bb22"⟩], true⟩

/-- A stopped-at-`false` readiness fixture (gating witness). -/
def w2State : ServerState := ⟨⟨3300, "localhost"⟩, [], false⟩

/-- The rendered `<li><a ...>` of one list entry (the map body of
`createBookmarkletsList`). -/
def listItemHtml (i : BookmarkletsListItem) : String :=
  "<li><a href=\"" ++ escapeHtml i.bookmarklet ++ "\">" ++
    escapeHtml i.anchorText ++ "</a></li>"

/-- The list item the index page renders for one source: note the anchor
text is `escapeHtml` of `"[w] " ++ escapeHtml filename` — the filename is
HTML-escaped twice (once by `createListResponse`, once more by
`createBookmarkletsList`). -/
def listItemFor (origin : String) (s : BookmarkletSource) : String :=
  listItemHtml
    ⟨"[w] " ++ escapeHtml s.filename,
     createDynamicScriptingBookmarklet origin s.hash⟩

/-- Boolean prefix test on character lists (kernel-reducible). -/
def hasPrefixB : List Char → List Char → Bool
  | [], _ => true
  | _ :: _, [] => false
  | p :: ps, c :: cs => p == c && hasPrefixB ps cs

/-- Boolean substring test on character lists (kernel-reducible). -/
def hasSubB (pat : List Char) : List Char → Bool
  | [] => pat.isEmpty
  | c :: t => hasPrefixB pat (c :: t) || hasSubB pat t

/-! ## Theorems -/

/-- In a generation with pairwise-distinct hashes, `find?` by a member's hash
returns exactly that member. -/
theorem find?_hash_unique {l : List BookmarkletSource} {src : BookmarkletSource}
    (hmem : src ∈ l)
    (hdist : List.Pairwise (fun a b => a.hash ≠ b.hash) l) :
    l.find? (fun s => s.hash == src.hash) = some src := by
  induction l with
  | nil => cases hmem
  | cons a t ih =>
    rcases List.mem_cons.mp hmem with rfl | hmem'
    · simp [List.find?_cons]
    · have hne : a.hash ≠ src.hash :=
        (List.pairwise_cons.mp hdist).1 src hmem'
      have := ih hmem' (List.pairwise_cons.mp hdist).2
      simp [List.find?_cons, hne, this]

/-- `find?` misses every generation none of whose hashes equals the query. -/
theorem find?_hash_none {l : List BookmarkletSource} {q : Option String}
    (hmiss : ∀ src ∈ l, q ≠ some src.hash) :
    l.find? (fun s => some s.hash == q) = none := by
  rw [List.find?_eq_none]
  intro s hs
  have := hmiss s hs
  simp only [beq_iff_eq]
  exact fun h => this h.symm

/-- Claim C1: on a ready server whose generation has pairwise-distinct
hashes, `GET /file?filename=<hash>` for an installed source's hash returns
status 200, `Content-Type` `text/javascript`, and exactly that source's
script as the body. -/
theorem C1_file_roundtrip (st : ServerState) (src : BookmarkletSource)
    (hready : st.isReady = true)
    (hdist : List.Pairwise (fun a b => a.hash ≠ b.hash) st.bookmarkletSources)
    (hmem : src ∈ st.bookmarkletSources) :
    createResponse st ⟨"/file", some src.hash⟩ =
      ⟨200, "text/javascript", src.script⟩ := by
  simp [createResponse, createResponseCore, hready,
    find?_hash_unique hmem hdist, createBookmarkletFileResponse]

/-- Witness for C1: the second of two installed sources is served back
verbatim. -/
theorem C1_file_roundtrip_witness :
    createResponse w1State ⟨"/file", some ("bb22")⟩ =
      ⟨200, "text/javascript", "2+2"⟩ :=
  C1_file_roundtrip w1State ⟨"b.js", "2+2", "bb22"⟩ (by decide) (by decide)
    (by decide)

/-- A trace containing no `setIsReady(true)` keeps a not-ready server
not ready. -/
theorem isReady_applyOps_false (st : ServerState) (ops : List ServerOp)
    (hr : st.isReady = false) (hops : ServerOp.setIsReady true ∉ ops) :
    (applyOps st ops).isReady = false := by
  induction ops generalizing st with
  | nil => simpa [applyOps] using hr
  | cons op t ih =>
    have hopt : ServerOp.setIsReady true ∉ t := fun h => hops (List.mem_cons_of_mem _ h)
    have hop1 : op ≠ ServerOp.setIsReady true := fun h => hops (h ▸ List.mem_cons_self _ _)
    rcases op with sources | b
    · exact ih (setBookmarkletSources st sources) hr hopt
    · cases b with
      | false => exact ih (setIsReady st false) rfl hopt
      | true => exact absurd rfl hop1

/-- Claim C2: every request processed after `setIsReady(false)` and before
any later `setIsReady(true)` — whatever other operations happen in between,
and whatever the path — receives 503 `text/plain`, never an index or script
body. -/
theorem C2_not_ready_503 (st : ServerState) (pre post : List ServerOp)
    (req : RequestData)
    (hpost : ServerOp.setIsReady true ∉ post) :
    createResponse (applyOps st (pre ++ ServerOp.setIsReady false :: post)) req =
      ⟨503, "text/plain", "503 Service Unavailable"⟩ := by
  have hmid : (applyOps (applyOp (applyOps st pre) (ServerOp.setIsReady false))
      post).isReady = false :=
    isReady_applyOps_false _ _ rfl hpost
  have hsplit : applyOps st (pre ++ ServerOp.setIsReady false :: post) =
      applyOps (applyOp (applyOps st pre) (ServerOp.setIsReady false)) post := by
    simp [applyOps, List.foldl_append]
  rw [hsplit]
  simp [createResponse, createResponseCore, hmid, createHttpErrorResponse]
  decide

/-- Witness for C2: a mid-rebuild request on a concrete trace, with a source
install in between, still gets the 503. -/
theorem C2_not_ready_503_witness :
    createResponse
      (applyOps w2State
        ([ServerOp.setBookmarkletSources [⟨"app.js", "alert(1)", "aa11"⟩],
          ServerOp.setIsReady true] ++ ServerOp.setIsReady false ::
         [ServerOp.setBookmarkletSources [⟨"app.js", "alert(2)", "aa11"⟩]]))
      ⟨"/", none⟩ =
      ⟨503, "text/plain", "503 Service Unavailable"⟩ :=
  C2_not_ready_503 w2State _ _ ⟨"/", none⟩ (by decide)

/-- Claim C6: on a ready server, `GET /file` with a `filename` parameter
matching no installed hash is a soft failure: status 200 (not 4xx/5xx),
`Content-Type` `text/javascript`, and a body that is an `alert(...)` call
carrying the not-found explanation. -/
theorem C6_unknown_hash (st : ServerState) (req : RequestData)
    (hready : st.isReady = true) (hpath : req.pathname = "/file")
    (hmiss : ∀ src ∈ st.bookmarkletSources, req.filenameParam ≠ some src.hash) :
    createResponse st req =
      ⟨200, "text/javascript", "alert(" ++ embedJson invalidFileErrorContent ++ ")"⟩ ∧
    hasSubB ("cannot be found").data invalidFileErrorContent.data = true := by
  refine ⟨?_, by decide⟩
  obtain ⟨p, q⟩ := req
  simp only at hpath
  subst hpath
  simp [createResponse, createResponseCore, hready, find?_hash_none hmiss,
    createInvalidFileResponse]

/-- Witness for C6: a ready one-source server answers an unknown hash
(`deadbeef`) with the 200 alert-script response. -/
theorem C6_unknown_hash_witness :
    createResponse w1State ⟨"/file", some ("deadbeef")⟩ =
      ⟨200, "text/javascript", "alert(" ++ embedJson invalidFileErrorContent ++ ")"⟩ ∧
    hasSubB ("cannot be found").data invalidFileErrorContent.data = true :=
  C6_unknown_hash w1State ⟨"/file", some ("deadbeef")⟩ (by decide) rfl
    (by decide)

/-- Claim C7: `isPortInUse` resolves `true` exactly when the transient bind
reports `EADDRINUSE`; a successful bind resolves `false` after closing the
transient server; any other bind error is propagated as a rejection — never
reported as `true` or `false`. -/
theorem C7_port_probe (o : BindOutcome) :
    ((isPortInUse o).settled = ProbeSettled.resolved true ↔ o = BindOutcome.errorAddrInUse) ∧
    (o = BindOutcome.listening →
      (isPortInUse o).settled = ProbeSettled.resolved false ∧
      (isPortInUse o).serverClosed = true) ∧
    (∀ e, o = BindOutcome.errorOther e →
      (isPortInUse o).settled = ProbeSettled.rejected e ∧
      (isPortInUse o).serverClosed = false) := by
  cases o
  all_goals simp [isPortInUse]

/-- Witness for C7: the successful-bind case resolves `false` and closes the
transient server. -/
theorem C7_port_probe_witness :
    (isPortInUse BindOutcome.listening).settled = ProbeSettled.resolved false ∧
    (isPortInUse BindOutcome.listening).serverClosed = true :=
  (C7_port_probe BindOutcome.listening).2.1 rfl

/-- `find?` over `List.range n` returns the least index satisfying the
predicate. -/
theorem find?_range_eq_some {p : Nat → Bool} {j : Nat} : ∀ {n : Nat},
    j < n → p j = true → (∀ i, i < j → p i = false) →
    (List.range n).find? p = some j := by
  intro n
  induction n with
  | zero => omega
  | succ m ih =>
    intro hj hpj hlt
    rw [List.range_succ, List.find?_append]
    rcases Nat.lt_or_ge j m with hjm | hjm
    · rw [ih hjm hpj hlt]
      rfl
    · have hjeq : j = m := by omega
      subst hjeq
      have hnone : (List.range j).find? p = none := by
        rw [List.find?_eq_none]
        intro i hi
        simp [hlt i (List.mem_range.mp hi)]
      simp [hnone, List.find?_cons, hpj]

/-- `find?` over `List.range n` finds nothing when the predicate fails
everywhere below `n`. -/
theorem find?_range_eq_none {p : Nat → Bool} {n : Nat}
    (h : ∀ i, i < n → p i = false) : (List.range n).find? p = none := by
  rw [List.find?_eq_none]
  intro i hi
  simp [h i (List.mem_range.mp hi)]

/-- Claim C3 (amended: the fallback-enabled clauses additionally assume
`defaultPort ≥ 1`, because the success check `if (!this.currentPort)` treats
a selected port `0` as unset).  With fallback enabled, `start` probes
`defaultPort + i` for `i < 20` in order and succeeds with `currentPort` set
to the first free candidate, and fails with
`"Maximum fallback attempts reached."` when all 20 candidates are in use;
with fallback disabled, it fails iff `defaultPort` is occupied and otherwise
sets `currentPort := defaultPort`. -/
theorem C3_port_negotiation (opts : FallbackOptions) (inUse : Nat → Bool) :
    (opts.fallbackPort = true → 1 ≤ opts.port →
      ((∀ i, i < 20 → inUse (opts.port + i) = true) →
        start opts inUse = Except.error StartError.maxFallbackAttemptsReached) ∧
      (∀ j, j < 20 → inUse (opts.port + j) = false →
        (∀ i, i < j → inUse (opts.port + i) = true) →
        start opts inUse = Except.ok (startSuccessState opts (opts.port + j)))) ∧
    (opts.fallbackPort = false →
      (inUse opts.port = true →
        start opts inUse = Except.error (StartError.portInUse opts.port)) ∧
      (inUse opts.port = false →
        start opts inUse = Except.ok (startSuccessState opts opts.port))) := by
  constructor
  · intro hfb hpos
    constructor
    · intro hall
      have hnone : (List.range 20).find? (fun i => !inUse (opts.port + i)) = none :=
        find?_range_eq_none (fun i hi => by simp [hall i hi])
      simp [start, hfb, hnone, jsFalsy]
    · intro j hj hfree hbusy
      have hsome : (List.range 20).find? (fun i => !inUse (opts.port + i)) = some j :=
        find?_range_eq_some hj (by simp [hfree]) (fun i hi => by simp [hbusy i hi])
      have hne : (opts.port + j == 0) = false := by
        simp only [beq_eq_false_iff_ne]
        omega
      simp [start, hfb, hsome, jsFalsy, hne]
  · intro hfb
    constructor
    · intro hbusy
      simp [start, hfb, hbusy]
    · intro hfree
      simp [start, hfb, hfree]

/-- Witness for C3: with port 3300 occupied and 3301 free, fallback startup
succeeds with `currentPort = 3301`. -/
theorem C3_port_negotiation_witness :
    start optsFallback3300 onlyPort3300InUse =
      Except.ok (startSuccessState optsFallback3300 3301) :=
  (C3_port_negotiation optsFallback3300 onlyPort3300InUse).1 rfl (by decide)
    |>.2 1 (by decide) (by decide) (fun i hi => by
      have : i = 0 := by omega
      subst this
      decide)

/-- Counterexample for C3 as stated: with fallback enabled, `defaultPort = 0`
and every port free, the first candidate port (0) is not in use, yet `start`
does not set it as the negotiated port — it fails with
`"Maximum fallback attempts reached."`, because `if (!this.currentPort)`
treats the assigned port `0` as unset. -/
theorem C3_counterexample :
    (List.range 20).all (fun i => !allPortsFree (0 + i)) = true ∧
    start optsFallback0 allPortsFree =
      Except.error StartError.maxFallbackAttemptsReached := by
  constructor
  · decide
  · decide

/-- Claim C4 (code bug): after a successful fallback startup with the default
port occupied, the negotiated `currentPort` is 3301, but the listener is
bound with `this.server.listen(this.defaultPort, this.host)` — port 3300,
the occupied one — so the listening socket's port is not `currentPort`. -/
theorem C4_listen_port_mismatch :
    start optsFallback3300 onlyPort3300InUse =
      Except.ok (startSuccessState optsFallback3300 3301) ∧
    (startSuccessState optsFallback3300 3301).currentPort = some 3301 ∧
    (startSuccessState optsFallback3300 3301).listenedPort = some 3300 ∧
    onlyPort3300InUse 3300 = true ∧
    (startSuccessState optsFallback3300 3301).currentPort ≠
      (startSuccessState optsFallback3300 3301).listenedPort := by
  refine ⟨?_, rfl, rfl, rfl, by decide⟩
  decide

/-- Setter traces do not change `currentPort`. -/
theorem currentPort_applyOpsF (st : FallbackServerState) (ops : List ServerOp) :
    (applyOpsF st ops).currentPort = st.currentPort := by
  induction ops generalizing st with
  | nil => rfl
  | cons op t ih =>
    rcases op with sources | b
    · exact ih _
    · exact ih _

/-- A successful `start` leaves a non-falsy `currentPort` whenever fallback
was enabled or the default port is nonzero. -/
theorem start_ok_not_falsy {opts : FallbackOptions} {inUse : Nat → Bool}
    {st : FallbackServerState}
    (h : start opts inUse = Except.ok st)
    (hp : opts.fallbackPort = true ∨ opts.port ≠ 0) :
    jsFalsy st.currentPort = false := by
  by_cases hfb : opts.fallbackPort
  · rw [start, if_pos hfb] at h
    rcases hfound : (List.range 20).find? (fun i => !inUse (opts.port + i)) with _ | j
    · rw [hfound] at h
      simp [jsFalsy] at h
    · rw [hfound] at h
      by_cases hz : opts.port + j = 0
      · simp [jsFalsy, hz] at h
      · simp only [Option.map_some, jsFalsy, Option.getD_some] at h
        rw [if_neg (by simp [hz])] at h
        cases h
        simp [startSuccessState, jsFalsy, hz]
  · have hport : opts.port ≠ 0 := hp.resolve_left hfb
    rw [start, if_neg hfb] at h
    by_cases hbusy : inUse opts.port
    · simp [hbusy] at h
    · simp only [hbusy, Bool.false_eq_true, if_false] at h
      cases h
      simp [startSuccessState, jsFalsy, hport]

/-- Claim C10 (amended: the unreachability clause additionally requires the
negotiated port to be nonzero — automatic with fallback enabled, and with
`defaultPort ≠ 0` otherwise — because `if (!this.currentPort)` also fires on
port `0`).  `handleRequest` throws `"Current port is undefined."` whenever
`currentPort` is unset; after a successful `start` (under that proviso) the
error branch is unreachable for every later request, whatever setter
operations ran in between. -/
theorem C10_current_port_guard :
    (∀ (st : FallbackServerState) (req : RequestData), st.currentPort = none →
      handleRequest st req = Except.error ("Current port is undefined.")) ∧
    (∀ (opts : FallbackOptions) (inUse : Nat → Bool) (st : FallbackServerState)
      (ops : List ServerOp) (req : RequestData),
      start opts inUse = Except.ok st →
      (opts.fallbackPort = true ∨ opts.port ≠ 0) →
      handleRequest (applyOpsF st ops) req ≠
        Except.error ("Current port is undefined.")) := by
  constructor
  · intro st req hnone
    simp [handleRequest, hnone, jsFalsy]
  · intro opts inUse st ops req hstart hp
    have hnf : jsFalsy (applyOpsF st ops).currentPort = false := by
      rw [currentPort_applyOpsF]
      exact start_ok_not_falsy hstart hp
    simp [handleRequest, hnf]

/-- Witness for C10: a concrete successful startup on port 3300 (fallback
disabled) followed by a generation install; the request goes through the
guard. -/
theorem C10_current_port_guard_witness :
    handleRequest
      (applyOpsF (startSuccessState optsNoFallback3300 3300)
        [ServerOp.setBookmarkletSources [⟨"x.js", "1+1", "h"⟩],
         ServerOp.setIsReady true])
      ⟨"/file", some ("h")⟩ ≠
      Except.error ("Current port is undefined.") :=
  C10_current_port_guard.2 optsNoFallback3300 allPortsFree
    (startSuccessState optsNoFallback3300 3300) _ _ (by decide) (Or.inr (by decide))

/-- Counterexample for C10 as stated: with fallback disabled and
`defaultPort = 0` free, `start` succeeds (assigning `currentPort = 0`), yet
every subsequent request — even after a generation is installed and the
server is ready — hits the `"Current port is undefined."` branch, because
`!this.currentPort` is true for the number `0`. -/
theorem C10_counterexample :
    start optsNoFallback0 allPortsFree =
      Except.ok (startSuccessState optsNoFallback0 0) ∧
    handleRequest
      (applyOpsF (startSuccessState optsNoFallback0 0)
        [ServerOp.setBookmarkletSources [⟨"x.js", "1+1", "h"⟩],
         ServerOp.setIsReady true])
      ⟨"/", none⟩ =
      Except.error ("Current port is undefined.") := by
  constructor
  · decide
  · decide

/-- A fold of a constant-step function over `List.range n` is an `n`-fold
iterate. -/
theorem foldl_range_iterate {α : Type} (g : α → α) (x : α) : ∀ (n : Nat),
    (List.range n).foldl (fun acc _ => g acc) x = g^[n] x := by
  intro n
  induction n with
  | zero => rfl
  | succ m ih =>
    rw [List.range_succ, List.foldl_append, ih, Function.iterate_succ_apply']
    rfl

/-- Sanity check of the SHA-256 model: the FIPS 180-4 test vector for the
empty message (`sha256` with empty salt and one stretch digests exactly the
raw input bytes). -/
theorem sha256_empty_vector :
    sha256 ("") ("") 1 =
      "e3b0c44298fc1c149afbf4c8996fb92427ae41e4649b934ca495991b7852b855" := by
  decide

/-- Sanity check of the SHA-256 model: the FIPS 180-4 test vector for
`"abc"`. -/
theorem sha256_abc_vector :
    sha256 ("abc") ("") 1 =
      "ba7816bf8f01cfea414140de5dae2223b00361a396177a9cb410ff61f20015ad" := by
  decide

/-- Claim C5 (amended): the filename-protecting hash starts from the raw
UTF-8 bytes of the filename — there is no initial digest of the filename
alone — and applies the digest exactly `stretchCount` times, each time to
the concatenation of the current buffer (initially the raw filename bytes,
afterwards the previous digest) with the salt bytes, rendered as lowercase
hex. -/
theorem C5_hash_stretching (data salt : String) (stretchCount : Nat)
    (_hpos : 1 ≤ stretchCount) :
    sha256 data salt stretchCount =
      toHexString
        ((fun h => sha256Digest (h ++ utf8Bytes salt))^[stretchCount]
          (utf8Bytes data)) := by
  simp only [sha256]
  rw [foldl_range_iterate]

/-- Witness for C5 (amended), at `stretchCount = 1`. -/
theorem C5_hash_stretching_witness :
    1 ≤ 1 ∧
    sha256 ("app.js") ("mysalt") 1 =
      toHexString
        ((fun h => sha256Digest (h ++ utf8Bytes ("mysalt")))^[1]
          (utf8Bytes ("app.js"))) :=
  ⟨Nat.le_refl 1, C5_hash_stretching ("app.js") ("mysalt") 1 (Nat.le_refl 1)⟩

/-- Counterexample for C5 as stated: for filename `"a"`, empty salt and
`stretchCount = 1`, the code's hash (one digest, applied to the raw filename
bytes) differs from the specified algorithm (an initial digest of the
filename alone followed by one salted re-digest). -/
theorem C5_counterexample :
    sha256 ("a") ("") 1 ≠ sha256SpecClaim ("a") ("") 1 := by
  decide

/-- Two strings with the same character data are equal. -/
theorem string_eq_of_data {s t : String} (h : s.data = t.data) : s = t :=
  congrArg String.mk h

/-- `dropWhile jsWs` consumes a whitespace prefix and stops at the first
non-whitespace character. -/
theorem dropWhile_jsWs_append : ∀ (pre : List Char),
    (∀ x ∈ pre, jsWs x = true) → ∀ {c : Char}, jsWs c = false →
    ∀ (rest : List Char), List.dropWhile jsWs (pre ++ c :: rest) = c :: rest := by
  intro pre
  induction pre with
  | nil =>
    intro _ c hc rest
    simp [List.dropWhile_cons, hc]
  | cons a t ih =>
    intro hws c hc rest
    have ha : jsWs a = true := hws a (List.mem_cons_self _ _)
    rw [List.cons_append, List.dropWhile_cons, if_pos ha]
    exact ih (fun x hx => hws x (List.mem_cons_of_mem _ hx)) hc rest

/-- `oneLine` on the bookmarklets-list template removes exactly its leading
whitespace run (the only match of the one-shot `/^\s+|\n/` regex), leaving
the document head and whatever follows intact. -/
theorem oneLineL_listTpl (mid : List Char) :
    oneLineL (listTplHead.data ++ mid) = listDocHead.data ++ mid := by
  have h : listTplHead.data =
      '\n' :: ' ' :: ' ' :: ' ' :: ' ' :: listDocHead.data := by decide
  have hdoc : listDocHead.data = '<' :: listDocHead.data.tail := by decide
  have w1 : jsWs '\n' = true := by decide
  have w2 : jsWs ' ' = true := by decide
  have w3 : jsWs '<' = false := by decide
  rw [h]
  simp only [List.cons_append]
  simp only [oneLineL, w1, if_true]
  simp only [List.dropWhile_cons, w1, w2, if_true]
  rw [hdoc, List.cons_append, List.dropWhile_cons, if_neg (by simp [w3])]

/-- `createBookmarkletsList` renders the document head, the escaped list
items in order, and the document tail. -/
theorem createBookmarkletsList_eq (items : List BookmarkletsListItem) :
    createBookmarkletsList items =
      listDocHead ++ (joinAll (items.map listItemHtml) ++ listTplTail) := by
  apply string_eq_of_data
  simp only [createBookmarkletsList, oneLineS, String.data_append]
  exact oneLineL_listTpl _

/-- The character being replaced never re-appears when it is absent from the
replacement. -/
theorem not_mem_replaceAllChar_self {a : Char} {r : List Char}
    (h : a ∉ r) (l : List Char) : a ∉ replaceAllChar a r l := by
  simp only [replaceAllChar, List.mem_flatMap, not_exists]
  rintro x ⟨hx, hmem⟩
  by_cases hxa : x = a
  · rw [if_pos hxa] at hmem
    exact h hmem
  · rw [if_neg hxa] at hmem
    exact hxa ((List.mem_singleton.mp hmem).symm ▸ rfl)

/-- A character absent from both the input and the replacement is absent
from the output of `replaceAllChar`. -/
theorem not_mem_replaceAllChar_other {b a : Char} {r : List Char}
    (hr : b ∉ r) {l : List Char} (hl : b ∉ l) : b ∉ replaceAllChar a r l := by
  simp only [replaceAllChar, List.mem_flatMap, not_exists]
  rintro x ⟨hx, hmem⟩
  by_cases hxa : x = a
  · rw [if_pos hxa] at hmem
    exact hr hmem
  · rw [if_neg hxa] at hmem
    exact hl ((List.mem_singleton.mp hmem) ▸ hx)

/-- `escapeHtml` output never contains a raw `<`. -/
theorem not_mem_escapeHtml_lt (y : String) : '<' ∉ (escapeHtml y).data := by
  show '<' ∉ replaceAllChar '>' _ _
  exact not_mem_replaceAllChar_other (by decide)
    (not_mem_replaceAllChar_self (by decide) _)

/-- `escapeHtml` output never contains a raw `"`. -/
theorem not_mem_escapeHtml_quot (y : String) : '"' ∉ (escapeHtml y).data := by
  show '"' ∉ replaceAllChar '>' _ _
  refine not_mem_replaceAllChar_other (by decide) ?_
  refine not_mem_replaceAllChar_other (by decide) ?_
  refine not_mem_replaceAllChar_other (by decide) ?_
  exact not_mem_replaceAllChar_self (by decide) _

/-- Each rendered list item contains exactly four `<` characters — its four
tag openers `<li>`, `<a ...>`, `</a>`, `</li>` — since the escaped href and
anchor text contain none. -/
theorem count_lt_listItemHtml (i : BookmarkletsListItem) :
    (listItemHtml i).data.count '<' = 4 := by
  have h1 : (escapeHtml i.bookmarklet).data.count '<' = 0 :=
    List.count_eq_zero.mpr (not_mem_escapeHtml_lt _)
  have h2 : (escapeHtml i.anchorText).data.count '<' = 0 :=
    List.count_eq_zero.mpr (not_mem_escapeHtml_lt _)
  show ((("<li><a href=\"" ++ escapeHtml i.bookmarklet ++ "\">" ++
      escapeHtml i.anchorText ++ "</a></li>")).data.count '<') = 4
  rw [String.data_append, String.data_append, String.data_append,
    String.data_append]
  simp [List.count_append, h1, h2]

/-- The item rendered for one source also contains exactly four `<`. -/
theorem count_lt_listItemFor (o : String) (s : BookmarkletSource) :
    (listItemFor o s).data.count '<' = 4 :=
  count_lt_listItemHtml _

/-- The joined list items contain exactly four `<` per source. -/
theorem count_lt_joinAll_items (o : String) (l : List BookmarkletSource) :
    (joinAll (l.map (listItemFor o))).data.count '<' = 4 * l.length := by
  induction l with
  | nil => rfl
  | cons s t ih =>
    show (((s :: t).map (listItemFor o)).map String.data).flatten.count '<' = _
    rw [List.map_cons, List.map_cons, List.flatten_cons, List.count_append]
    have ih2 : ((t.map (listItemFor o)).map String.data).flatten.count '<' =
        4 * t.length := ih
    rw [ih2, count_lt_listItemFor]
    simp [List.length_cons, Nat.mul_succ, Nat.add_comm]

/-- Claim C8 (amended: the anchor text is `escapeHtml ("[w] " ++ escapeHtml
filename)` — the display name is HTML-escaped twice, so a filename with
HTML-significant characters is displayed in once-escaped form rather than
verbatim; everything else as claimed).  On a ready server, `GET /` returns a
200 `text/html` page that is the document head, one `<li><a ...>` item per
source in order, and the document tail; the page has exactly four `<`
characters per source beyond the fixed skeleton, so escaped names cannot
inject markup. -/
theorem C8_index_rendering (st : ServerState) (hready : st.isReady = true) :
    createResponse st ⟨"/", none⟩ =
      ⟨200, "text/html",
        listDocHead ++
          (joinAll (st.bookmarkletSources.map (listItemFor (serverOrigin st.options))) ++
            listTplTail)⟩ ∧
    (createResponse st ⟨"/", none⟩).content.data.count '<' =
      (listDocHead.data.count '<' + 4 * st.bookmarkletSources.length) +
        listTplTail.data.count '<' := by
  have hmain : createResponse st ⟨"/", none⟩ =
      ⟨200, "text/html",
        listDocHead ++
          (joinAll (st.bookmarkletSources.map (listItemFor (serverOrigin st.options))) ++
            listTplTail)⟩ := by
    simp only [createResponse, createResponseCore, hready, Bool.not_true,
      Bool.false_eq_true, if_false, createListResponse]
    rw [createBookmarkletsList_eq, List.map_map]
    rfl
  refine ⟨hmain, ?_⟩
  rw [hmain]
  show (listDocHead ++ _).data.count '<' = _
  rw [String.data_append, String.data_append, List.count_append,
    List.count_append, count_lt_joinAll_items]
  omega

/-- Witness for C8 (amended): the two-source fixture. -/
theorem C8_index_rendering_witness :
    createResponse w1State ⟨"/", none⟩ =
      ⟨200, "text/html",
        listDocHead ++
          (joinAll (w1State.bookmarkletSources.map (listItemFor (serverOrigin w1State.options))) ++
            listTplTail)⟩ ∧
    (createResponse w1State ⟨"/", none⟩).content.data.count '<' =
      (listDocHead.data.count '<' + 4 * w1State.bookmarkletSources.length) +
        listTplTail.data.count '<' :=
  C8_index_rendering w1State rfl

/-- Counterexample for C8 as stated: for the source filename `a<b.js`, the
index page carries the anchor text `[w] a&amp;lt;b.js` (the name escaped
twice), and contains neither `a&lt;b.js` (the rendering that would display
the original name) nor the raw `a<b.js` anywhere — so the original
filename's characters are not faithfully displayed. -/
theorem C8_counterexample :
    (createResponse c8State ⟨"/", none⟩).status = 200 ∧
    hasSubB ("a&amp;lt;b.js").data
      (createResponse c8State ⟨"/", none⟩).content.data = true ∧
    hasSubB ("a&lt;b.js").data
      (createResponse c8State ⟨"/", none⟩).content.data = false ∧
    hasSubB ("a<b.js").data
      (createResponse c8State ⟨"/", none⟩).content.data = false := by
  refine ⟨rfl, ?_, ?_, ?_⟩
  · decide
  · decide
  · decide

/-- `flatMap` composes. -/
theorem flatMap_assoc {α β γ : Type} (l : List α) (f : α → List β) (g : β → List γ) :
    (l.flatMap f).flatMap g = l.flatMap (fun x => (f x).flatMap g) := by
  induction l with
  | nil => rfl
  | cons a t ih =>
    simp [List.flatMap_cons, List.flatMap_append, ih]

/-- `replaceAllChar` on a cons. -/
theorem replaceAllChar_cons (a : Char) (r : List Char) (x : Char) (t : List Char) :
    replaceAllChar a r (x :: t) =
      (if x = a then r else [x]) ++ replaceAllChar a r t := by
  simp [replaceAllChar, List.flatMap_cons]

/-- `replaceAllChar` is the identity when the searched character is absent. -/
theorem replaceAllChar_of_not_mem {a : Char} {l : List Char} (h : a ∉ l)
    (r : List Char) : replaceAllChar a r l = l := by
  induction l with
  | nil => rfl
  | cons x t ih =>
    have hxa : x ≠ a := fun he => h (he ▸ List.mem_cons_self _ _)
    rw [replaceAllChar_cons, if_neg hxa,
      ih (fun hm => h (List.mem_cons_of_mem _ hm))]
    rfl

/-- `replaceAllChar` distributes over append. -/
theorem replaceAllChar_append (a : Char) (r : List Char) (l₁ l₂ : List Char) :
    replaceAllChar a r (l₁ ++ l₂) =
      replaceAllChar a r l₁ ++ replaceAllChar a r l₂ := by
  simp [replaceAllChar, List.flatMap_append]

/-- `replaceAllChar` maps over a `flatMap` pointwise. -/
theorem replaceAllChar_flatMap (a : Char) (r : List Char) {α : Type}
    (l : List α) (f : α → List Char) :
    replaceAllChar a r (l.flatMap f) =
      l.flatMap (fun x => replaceAllChar a r (f x)) := by
  simp only [replaceAllChar]
  rw [flatMap_assoc]

/-- `embedJson` is quote, the per-character fused escape of the body, quote. -/
theorem embedJson_data (s : String) :
    (embedJson s).data = '"' :: (s.data.flatMap embedJsonChar ++ ['"']) := by
  show replaceAllChar '\u2029' ['\\', 'u', '2', '0', '2', '9']
      (replaceAllChar '\u2028' ['\\', 'u', '2', '0', '2', '8']
        ((['"'] : List Char) ++ (s.data.flatMap escapeJsonChar ++ ['"']))) =
    '"' :: (s.data.flatMap embedJsonChar ++ ['"'])
  simp only [replaceAllChar_append, replaceAllChar_flatMap]
  rfl

/-- Each lowercase hex digit parses back to its value and is not a
line/paragraph separator. -/
theorem hexDigitLower_props (k : Nat) (hk : k < 16) :
    hexVal (hexDigitLower k) = some k ∧
    ('\u2028' = hexDigitLower k) = False ∧
    ('\u2029' = hexDigitLower k) = False := by
  have h : ∀ j : Fin 16,
      hexVal (hexDigitLower j.val) = some j.val ∧
      ('\u2028' = hexDigitLower j.val) = False ∧
      ('\u2029' = hexDigitLower j.val) = False := by decide
  exact h ⟨k, hk⟩

/-- Parsing one escaped character undoes the escape. -/
theorem jsonUnescapeAux_embed (c : Char) (acc rest : List Char) :
    jsonUnescapeAux acc (embedJsonChar c ++ rest) = jsonUnescapeAux (c :: acc) rest := by
  by_cases h1 : c = '"'
  · subst h1
    rw [show embedJsonChar '"' = ['\\', '"'] from by decide]
    simp [jsonUnescapeAux, jsonUnescapeChar]
  by_cases h2 : c = '\\'
  · subst h2
    rw [show embedJsonChar '\\' = ['\\', '\\'] from by decide]
    simp [jsonUnescapeAux, jsonUnescapeChar]
  by_cases h3 : c = '\x08'
  · subst h3
    rw [show embedJsonChar '\x08' = ['\\', 'b'] from by decide]
    simp [jsonUnescapeAux, jsonUnescapeChar]
  by_cases h4 : c = '\t'
  · subst h4
    rw [show embedJsonChar '\t' = ['\\', 't'] from by decide]
    simp [jsonUnescapeAux, jsonUnescapeChar]
  by_cases h5 : c = '\n'
  · subst h5
    rw [show embedJsonChar '\n' = ['\\', 'n'] from by decide]
    simp [jsonUnescapeAux, jsonUnescapeChar]
  by_cases h6 : c = '\x0c'
  · subst h6
    rw [show embedJsonChar '\x0c' = ['\\', 'f'] from by decide]
    simp [jsonUnescapeAux, jsonUnescapeChar]
  by_cases h7 : c = '\r'
  · subst h7
    rw [show embedJsonChar '\r' = ['\\', 'r'] from by decide]
    simp [jsonUnescapeAux, jsonUnescapeChar]
  have n1 : c.toNat ≠ 34 := fun h => h1 (by rw [← Char.ofNat_toNat c, h])
  have n2 : c.toNat ≠ 92 := fun h => h2 (by rw [← Char.ofNat_toNat c, h])
  have n3 : c.toNat ≠ 8 := fun h => h3 (by rw [← Char.ofNat_toNat c, h])
  have n4 : c.toNat ≠ 9 := fun h => h4 (by rw [← Char.ofNat_toNat c, h])
  have n5 : c.toNat ≠ 10 := fun h => h5 (by rw [← Char.ofNat_toNat c, h])
  have n6 : c.toNat ≠ 12 := fun h => h6 (by rw [← Char.ofNat_toNat c, h])
  have n7 : c.toNat ≠ 13 := fun h => h7 (by rw [← Char.ofNat_toNat c, h])
  have hesc : escapeJsonChar c =
      if c.toNat < 32 then
        ['\\', 'u', '0', '0', hexDigitLower (c.toNat / 16), hexDigitLower (c.toNat % 16)]
      else [c] := by
    simp [escapeJsonChar, n1, n2, n3, n4, n5, n6, n7]
  by_cases hlt : c.toNat < 32
  · have hd1 := hexDigitLower_props (c.toNat / 16) (by omega)
    have hd2 := hexDigitLower_props (c.toNat % 16) (by omega)
    have m28 : '\u2028' ∉
        ['\\', 'u', '0', '0', hexDigitLower (c.toNat / 16), hexDigitLower (c.toNat % 16)] := by
      simp [List.mem_cons, hd1.2.1, hd2.2.1]
    have m29 : '\u2029' ∉
        ['\\', 'u', '0', '0', hexDigitLower (c.toNat / 16), hexDigitLower (c.toNat % 16)] := by
      simp [List.mem_cons, hd1.2.2, hd2.2.2]
    have hemb : embedJsonChar c =
        ['\\', 'u', '0', '0', hexDigitLower (c.toNat / 16), hexDigitLower (c.toNat % 16)] := by
      rw [embedJsonChar, hesc, if_pos hlt, replaceAllChar_of_not_mem m28,
        replaceAllChar_of_not_mem m29]
    rw [hemb]
    simp only [List.cons_append, jsonUnescapeAux, hd1.1, hd2.1]
    rw [show hexVal '0' = some 0 from by decide]
    have harith : ((0 * 16 + 0) * 16 + c.toNat / 16) * 16 + c.toNat % 16 = c.toNat := by
      omega
    dsimp only
    rw [harith]
    rw [if_pos (Or.inl (by omega)), Char.ofNat_toNat]
    rfl
  · have hemb : embedJsonChar c = replaceAllChar (Char.ofNat 8233) ['\\', 'u', '2', '0', '2', '9']
        (replaceAllChar (Char.ofNat 8232) ['\\', 'u', '2', '0', '2', '8'] [c]) := by
      rw [embedJsonChar, hesc, if_neg hlt]
    by_cases h28 : c = Char.ofNat 8232
    · subst h28
      rw [show embedJsonChar (Char.ofNat 8232) = ['\\', 'u', '2', '0', '2', '8'] from by decide]
      simp [jsonUnescapeAux, hexVal]
    by_cases h29 : c = Char.ofNat 8233
    · subst h29
      rw [show embedJsonChar (Char.ofNat 8233) = ['\\', 'u', '2', '0', '2', '9'] from by decide]
      simp [jsonUnescapeAux, hexVal]
    have h28x : Char.ofNat 8232 ∉ [c] := by
      simp only [List.mem_singleton]
      exact fun h => h28 h.symm
    have h29x : Char.ofNat 8233 ∉ [c] := by
      simp only [List.mem_singleton]
      exact fun h => h29 h.symm
    have hemb2 : embedJsonChar c = [c] := by
      rw [hemb, replaceAllChar_of_not_mem h28x, replaceAllChar_of_not_mem h29x]
    rw [hemb2]
    rw [jsonUnescapeAux.eq_def]
    simp [h1, h2, hlt]

/-- Parsing an escaped body stops at the closing quote and recovers the
original characters. -/
theorem jsonUnescapeAux_flatMap (l : List Char) : ∀ (acc : List Char),
    jsonUnescapeAux acc (l.flatMap embedJsonChar ++ ['"']) =
      some (acc.reverse ++ l) := by
  induction l with
  | nil =>
    intro acc
    simp [jsonUnescapeAux]
  | cons c t ih =>
    intro acc
    rw [List.flatMap_cons, List.append_assoc, jsonUnescapeAux_embed, ih]
    simp

/-- Claim C9: `embedJson` equals `JSON.stringify` with every raw U+2028 and
U+2029 replaced by its escape sequence, so its output contains no raw
line/paragraph separator characters, and parsing the output as JSON yields
the original string back unchanged. -/
theorem C9_embedJson_roundtrip (s : String) :
    (('\u2028' ∉ (embedJson s).data ∧ '\u2029' ∉ (embedJson s).data)) ∧
    jsonParseString (embedJson s) = some s := by
  refine ⟨⟨?_, ?_⟩, ?_⟩
  · show '\u2028' ∉ replaceAllChar '\u2029' ['\\', 'u', '2', '0', '2', '9']
        (replaceAllChar '\u2028' ['\\', 'u', '2', '0', '2', '8'] (jsonStringifyString s).data)
    exact not_mem_replaceAllChar_other (by decide)
      (not_mem_replaceAllChar_self (by decide) _)
  · show '\u2029' ∉ replaceAllChar '\u2029' ['\\', 'u', '2', '0', '2', '9']
        (replaceAllChar '\u2028' ['\\', 'u', '2', '0', '2', '8'] (jsonStringifyString s).data)
    exact not_mem_replaceAllChar_self (by decide) _
  · rw [jsonParseString, embedJson_data]
    simp only []
    rw [jsonUnescapeAux_flatMap]
    simp


/-- Witness for C9 at a concrete string containing a quote, a newline and a
raw U+2028. -/
theorem C9_embedJson_roundtrip_witness :
    (('\u2028' ∉ (embedJson ("a\"\n\u2028b")).data ∧
      '\u2029' ∉ (embedJson ("a\"\n\u2028b")).data)) ∧
    jsonParseString (embedJson ("a\"\n\u2028b")) = some ("a\"\n\u2028b") :=
  C9_embedJson_roundtrip ("a\"\n\u2028b")

end BOWP
